import Mathlib

/-!
Shallow embedding of `src/trader/api_utils.go` (package `trader`), a small
client for the OANDA practice REST API.  Pure data transformations are
embedded as Lean functions; the two HTTP calls are split into the pure
request-building phase and the pure response-handling phase, with the
network result (status code, body, JSON-decode outcome) supplied as input.
Go `float32` price values are modelled as the exact rational numbers they
denote (prices are only copied and formatted, never computed with).
Go's fallible returns `(*T, error)` are modelled as `Except String T`:
`.error` corresponds to a `nil` result pointer plus a non-nil error.
-/

namespace Trader

/-- Decidable equality for `Except`, so that concrete runs of the
embedded fallible functions can be checked by `decide`. -/
instance {ε α : Type _} [DecidableEq ε] [DecidableEq α] : DecidableEq (Except ε α) := fun x y =>
  match x, y with
  | Except.ok a, Except.ok b =>
    if h : a = b then Decidable.isTrue (congrArg Except.ok h)
    else Decidable.isFalse (fun hc => h (Except.ok.inj hc))
  | Except.error a, Except.error b =>
    if h : a = b then Decidable.isTrue (congrArg Except.error h)
    else Decidable.isFalse (fun hc => h (Except.error.inj hc))
  | Except.ok _, Except.error _ => Decidable.isFalse (fun hc => Except.noConfusion hc)
  | Except.error _, Except.ok _ => Decidable.isFalse (fun hc => Except.noConfusion hc)

/-- `const baseURL` from the source. -/
def baseURL : String := "https://api-fxpractice.oanda.com"

/-- `const pricingEndpoint` from the source. -/
def pricingEndpoint : String := "/v3/accounts/{accountID}/pricing"

/-- `const orderEndpoint` from the source. -/
def orderEndpoint : String := "/v3/accounts/{accountID}/orders"

/-- Go struct `Credentials`. -/
structure Credentials where
  AccountID : String
  BearerToken : String
deriving DecidableEq, Repr

/-- The anonymous Go struct `{ Price float32 }` used for both bid and ask
levels inside `RawPricingResponse`. -/
structure PriceLevel where
  Price : ℚ
deriving DecidableEq, Repr

/-- One element of the `Prices` slice of Go struct `RawPricingResponse`. -/
structure RawPrice where
  Instrument : String
  Tradeable : Bool
  Bids : List PriceLevel
  Asks : List PriceLevel
deriving DecidableEq, Repr

/-- Go struct `RawPricingResponse`. -/
structure RawPricingResponse where
  Time : String
  Prices : List RawPrice
deriving DecidableEq, Repr

/-- Go struct `Price` (the flattened per-instrument record). -/
structure Price where
  Instrument : String
  Tradeable : Bool
  Bid : ℚ
  Ask : ℚ
deriving DecidableEq, Repr

/-- Go struct `PricingResponse`. -/
structure PricingResponse where
  Time : String
  Prices : List Price
deriving DecidableEq, Repr

/-- Go struct `MarketOrder`.  All fields are strings, as in the source;
the Go field `Type` is written `«Type»` because `Type` is reserved in Lean. -/
structure MarketOrder where
  Units : String
  Instrument : String
  PriceBound : String
  TimeInForce : String
  «Type» : String
  PositionFill : String
deriving DecidableEq, Repr

/-- Go struct `TradeOpened`. -/
structure TradeOpened where
  TradeID : String
  Units : String
deriving DecidableEq, Repr

/-- Go struct `OrderCreateTransaction`. -/
structure OrderCreateTransaction where
  AccountID : String
  BatchID : String
  ID : String
  Instrument : String
  PositionFill : String
  Reason : String
  Time : String
  TimeInForce : String
  «Type» : String
  Units : String
  UserID : Int
deriving DecidableEq, Repr

/-- Go struct `OrderFillTransaction`. -/
structure OrderFillTransaction where
  AccountBalance : String
  AccountID : String
  BatchID : String
  Financing : String
  ID : String
  Instrument : String
  OrderID : String
  Pl : String
  Price : String
  Reason : String
  Time : String
  TradeOpened : TradeOpened
  «Type» : String
  Units : String
  UserID : Int
deriving DecidableEq, Repr

/-- Go struct `OrderResponse`. -/
structure OrderResponse where
  LastTransactionID : String
  OrderCreateTransaction : OrderCreateTransaction
  OrderFillTransaction : OrderFillTransaction
  RelatedTransactionIDs : List String
deriving DecidableEq, Repr

/-- The body of the loop in `parseRawResponse` (lines 133-151), on the
elements of `rawResponse.Prices` taken in order.  At each element the
bid check comes before the ask check, and a failed check returns the
error immediately, abandoning the remaining elements, exactly as the
Go `return nil, fmt.Errorf(...)` inside the loop does. -/
def parsePrices : List RawPrice → Except String (List Price)
  | [] => Except.ok []
  | rp :: rest =>
    match rp.Bids with
    | [] => Except.error "No bid prices recieved."
    | b :: _ =>
      match rp.Asks with
      | [] => Except.error "No ask prices recieved."
      | a :: _ =>
        match parsePrices rest with
        | Except.error e => Except.error e
        | Except.ok ps =>
          Except.ok ({ Instrument := rp.Instrument, Tradeable := rp.Tradeable,
                       Bid := b.Price, Ask := a.Price } :: ps)

/-- Go function `parseRawResponse`: copies `Time`, reshapes every
element of `Prices`, and fails (returning a nil pointer and an error)
as soon as one instrument has no bid or no ask levels. -/
def parseRawResponse (rawResponse : RawPricingResponse) : Except String PricingResponse :=
  match parsePrices rawResponse.Prices with
  | Except.error e => Except.error e
  | Except.ok ps => Except.ok { Time := rawResponse.Time, Prices := ps }

/-- The successful per-record reshaping performed by the loop body of
`parseRawResponse`: instrument and tradeable flag copied, bid/ask taken
from the first listed level (`Bids[0]`, `Asks[0]`; the `headD` default is
never reached on records with at least one level on each side). -/
def convertRawPrice (rp : RawPrice) : Price :=
  { Instrument := rp.Instrument
    Tradeable := rp.Tradeable
    Bid := (rp.Bids.headD ⟨0⟩).Price
    Ask := (rp.Asks.headD ⟨0⟩).Price }

/-- Go `fmt.Sprintf("%.5f", x)` on the (exact rational value of the)
`float32` argument.  The sign is emitted from the value's own sign
before the magnitude is rounded, so a negative value whose magnitude
rounds to zero prints as `-0.00000` (the `float32` negative zero itself
is the one input ℚ cannot represent, collapsing to `0.00000`).  The
magnitude `|q| * 100000 = t / den` is rounded to the nearest integer
with exact decimal ties broken to even, as Go's `strconv` fixed-point
formatting does on the exact binary value (such ties do occur: any
`float32` that is an odd multiple of `1/64` scaled by `10^5` is an
exact half-integer). -/
def formatFixed5 (q : ℚ) : String :=
  let sign := if q.num < 0 then "-" else ""
  let t : Nat := q.num.natAbs * 100000
  let m : Nat := t / q.den
  let r : Nat := t % q.den
  let n : Nat :=
    if 2 * r > q.den then m + 1
    else if 2 * r < q.den then m
    else if m % 2 = 0 then m else m + 1
  let fs := toString (n % 100000)
  sign ++ toString (n / 100000) ++ "." ++
    String.mk (List.replicate (5 - fs.length) '0') ++ fs

/-- The `MarketOrderRequest` body built by `placeMarketOrder`
(lines 201-210): `fmt.Sprintf("%d", units)` is decimal integer
formatting, `fmt.Sprintf("%.5f", priceBound)` is `formatFixed5`, the
instrument is copied, and the remaining three fields are hardcoded. -/
def placeMarketOrderBody (units : Int) (instrument : String) (priceBound : ℚ) : MarketOrder :=
  { Units := toString units
    Instrument := instrument
    PriceBound := formatFixed5 priceBound
    TimeInForce := "FOK"
    «Type» := "MARKET"
    PositionFill := "DEFAULT" }

/-- A built HTTP request, as far as the source configures it: method,
URL with the account id substituted, headers, and the query parameters
as added before `q.Encode()` percent-encodes them. -/
structure HttpRequest where
  method : String
  url : String
  headers : List (String × String)
  query : List (String × String)
deriving DecidableEq, Repr

/-- The request-building phase of `getPrices` (lines 156-167): URL from
`baseURL+pricingEndpoint` with `{accountID}` replaced, bearer-token
header, and a single `instruments` query parameter holding
`strings.Join(instruments, ",")`.  Total: no instrument is inspected
and no error can be produced before the network call. -/
def getPricesRequest (creds : Credentials) (instruments : List String) : HttpRequest :=
  { method := "GET"
    url := (baseURL ++ pricingEndpoint).replace "{accountID}" creds.AccountID
    headers := [("Authorization", "Bearer " ++ creds.BearerToken)]
    query := [("instruments", String.intercalate "," instruments)] }

/-- The response-handling phase of `getPrices` (lines 180-194), given the
observed status code and the outcome of `json.Unmarshal` on the body:
a non-200 status yields the formatted status-code error before the body
is decoded; otherwise a decode failure propagates, and a decoded raw
response is reshaped by `parseRawResponse`. -/
def getPricesHandle (statusCode : Nat) (decoded : Except String RawPricingResponse) :
    Except String PricingResponse :=
  if statusCode ≠ 200 then
    Except.error (toString statusCode ++
      " response code received, Prices API request not working as expected")
  else
    match decoded with
    | Except.error e => Except.error e
    | Except.ok rawResponse => parseRawResponse rawResponse

/-- The response-handling phase of `placeMarketOrder` (lines 237-249),
given the observed status code, the raw body text, and the outcome of
`json.Unmarshal` on that body: a non-201 status yields
`unexpected status code: <code>, body: <body>`; otherwise the decode
outcome is returned. -/
def placeMarketOrderHandle (statusCode : Nat) (body : String)
    (decoded : Except String OrderResponse) : Except String OrderResponse :=
  if statusCode ≠ 201 then
    Except.error ("unexpected status code: " ++ toString statusCode ++ ", body: " ++ body)
  else
    decoded

/-- The environment a run of `EntryPoint` observes: for each of the two
possible network round trips, the status code, the raw body (only used
in the order error message), and the outcome of decoding the body.
Transport-level failures of `client.Do` are not modelled: both calls
are assumed to reach a response. -/
structure Env where
  pricingStatus : Nat
  pricingDecoded : Except String RawPricingResponse
  orderStatus : Nat
  orderBody : String
  orderDecoded : Except String OrderResponse

/-- Observable events of a run: `readConfig` is one `os.Open("config.json")`
plus decode inside `getCreds`; `httpGet`/`httpPost` are the two network
calls; `orderCall` records an invocation of `placeMarketOrder` with its
arguments; the print/log/dump events mirror the driver's output
statements, and `panicIndex` the out-of-bounds panic `Prices[0]` would
raise on an empty price list. -/
inductive Event
  | readConfig
  | httpGet (instruments : List String)
  | httpPost (order : MarketOrder)
  | orderCall (units : Int) (instrument : String) (priceBound : ℚ)
  | printLine (s : String)
  | logOutput (s : String)
  | fatalExit (s : String)
  | dumpOutput
  | panicIndex
deriving DecidableEq, Repr

/-- Events emitted by `getPrices` before its result is known: one
credential load (`getCreds` re-reads `config.json` on every call,
line 157) and one GET request. -/
def getPricesEvents (instruments : List String) : List Event :=
  [Event.readConfig, Event.httpGet instruments]

/-- Result of `getPrices` in environment `env`. -/
def getPricesResult (env : Env) : Except String PricingResponse :=
  getPricesHandle env.pricingStatus env.pricingDecoded

/-- Events emitted by a call `placeMarketOrder(units, instrument,
priceBound)`: the call itself, a credential load (`getCreds` again,
line 198), and the POST carrying the serialized body. -/
def placeMarketOrderEvents (units : Int) (instrument : String) (priceBound : ℚ) : List Event :=
  [Event.orderCall units instrument priceBound, Event.readConfig,
   Event.httpPost (placeMarketOrderBody units instrument priceBound)]

/-- Result of `placeMarketOrder` in environment `env`. -/
def placeMarketOrderResult (env : Env) : Except String OrderResponse :=
  placeMarketOrderHandle env.orderStatus env.orderBody env.orderDecoded

/-- Go function `EntryPoint` (lines 252-276) as the trace of events a run
produces in environment `env`: fetch prices for the three hardcoded
pairs; on error `log.Fatalf` exits; on success print and dump, then read
`Prices[0]` (a panic on an empty list) and, when its `Tradeable` flag is
true, place a single 1-unit `GBP_USD` order bounded at that record's
ask, logging failure or printing and dumping success; when the flag is
false, print the not-tradeable message and stop. -/
def EntryPoint (env : Env) : List Event :=
  let instruments := ["GBP_USD", "EUR_GBP", "GBP_JPY"]
  getPricesEvents instruments ++
    match getPricesResult env with
    | Except.error e => [Event.fatalExit ("Error retrieving prices: " ++ e)]
    | Except.ok pricesResponse =>
      [Event.printLine "Prices retrieved successfully.", Event.dumpOutput] ++
        match pricesResponse.Prices.head? with
        | none => [Event.panicIndex]
        | some p =>
          if p.Tradeable then
            placeMarketOrderEvents 1 "GBP_USD" p.Ask ++
              match placeMarketOrderResult env with
              | Except.error e => [Event.logOutput ("Error placing market order: " ++ e)]
              | Except.ok _ =>
                [Event.printLine "Market order placed successfully.", Event.dumpOutput]
          else
            [Event.printLine "Error executing market order! Instrument currently not tradeable."]

/-- Whether an event is an invocation of `placeMarketOrder`. -/
def Event.isOrderCall : Event → Bool
  | Event.orderCall _ _ _ => true
  | _ => false

/-- Whether an event is a credential load from `config.json`. -/
def Event.isReadConfig : Event → Bool
  | Event.readConfig => true
  | _ => false

/-- The order placements a trace contains. -/
def ordersPlaced (evs : List Event) : List Event :=
  evs.filter Event.isOrderCall

/-- How many times a trace reads the configuration file. -/
def countReadConfig (evs : List Event) : Nat :=
  evs.countP (fun e => e.isReadConfig)

/-! ### Helper lemmas about the reshaping loop -/

/-- When every record has at least one level on each side, the loop of
`parseRawResponse` succeeds and is exactly a map of the per-record
reshaping over the input list. -/
theorem parsePrices_eq_map (l : List RawPrice)
    (h : ∀ rp ∈ l, rp.Bids ≠ [] ∧ rp.Asks ≠ []) :
    parsePrices l = Except.ok (l.map convertRawPrice) := by
  induction l with
  | nil => rfl
  | cons rp rest ih =>
    obtain ⟨hb, ha⟩ := h rp (List.mem_cons_self rp rest)
    obtain ⟨b, bs, hB⟩ := List.exists_cons_of_ne_nil hb
    obtain ⟨a, as', hA⟩ := List.exists_cons_of_ne_nil ha
    have hrest := ih fun x hx => h x (List.mem_cons_of_mem rp hx)
    simp [parsePrices, hB, hA, hrest, convertRawPrice]

/-- The loop of `parseRawResponse` reports the missing-bid error as soon
as it reaches an index whose record has no bid levels, provided all
earlier records pass both checks. -/
theorem parsePrices_error_bid_at (l : List RawPrice) (i : Nat) (hi : i < l.length)
    (hpre : ∀ j (hj : j < i),
      (l.get ⟨j, Nat.lt_trans hj hi⟩).Bids ≠ [] ∧ (l.get ⟨j, Nat.lt_trans hj hi⟩).Asks ≠ [])
    (hbid : (l.get ⟨i, hi⟩).Bids = []) :
    parsePrices l = Except.error "No bid prices recieved." := by
  induction l generalizing i with
  | nil => exact absurd hi (Nat.not_lt_zero i)
  | cons rp rest ih =>
    cases i with
    | zero =>
      have hB : rp.Bids = [] := hbid
      simp [parsePrices, hB]
    | succ n =>
      have hb0 : rp.Bids ≠ [] := (hpre 0 (Nat.succ_pos n)).1
      have ha0 : rp.Asks ≠ [] := (hpre 0 (Nat.succ_pos n)).2
      obtain ⟨b, bs, hB⟩ := List.exists_cons_of_ne_nil hb0
      obtain ⟨a, as', hA⟩ := List.exists_cons_of_ne_nil ha0
      simp only [List.get_cons_succ] at hbid
      have hrest := ih n (Nat.lt_of_succ_lt_succ hi)
        (fun j hj => by
          have := hpre (j + 1) (Nat.succ_lt_succ hj)
          simpa only [List.get_cons_succ] using this) hbid
      simp [parsePrices, hB, hA, hrest]

/-! ### Claim theorems -/

/-- Claim C1: on any raw pricing payload in which every instrument entry
has at least one bid level and at least one ask level, `parseRawResponse`
succeeds and returns one output record per input record in the same
order (the output price list is the map of the per-record reshaping over
the input list, so it has the input's length), `Time` is copied
unchanged, and each record's reshaping copies `Instrument` and
`Tradeable` unchanged and takes `Bid`/`Ask` from the first listed bid
and ask level. -/
theorem parseRawResponse_success_shape (raw : RawPricingResponse)
    (h : ∀ rp ∈ raw.Prices, rp.Bids ≠ [] ∧ rp.Asks ≠ []) :
    parseRawResponse raw =
      Except.ok { Time := raw.Time, Prices := raw.Prices.map convertRawPrice } ∧
    (raw.Prices.map convertRawPrice).length = raw.Prices.length ∧
    ∀ rp ∈ raw.Prices, ∃ b bs a as',
      rp.Bids = b :: bs ∧ rp.Asks = a :: as' ∧
      convertRawPrice rp =
        { Instrument := rp.Instrument, Tradeable := rp.Tradeable,
          Bid := b.Price, Ask := a.Price } := by
  refine ⟨?_, List.length_map _ _, ?_⟩
  · unfold parseRawResponse
    rw [parsePrices_eq_map raw.Prices h]
  · intro rp hrp
    obtain ⟨hb, ha⟩ := h rp hrp
    obtain ⟨b, bs, hB⟩ := List.exists_cons_of_ne_nil hb
    obtain ⟨a, as', hA⟩ := List.exists_cons_of_ne_nil ha
    exact ⟨b, bs, a, as', hB, hA, by simp [convertRawPrice, hB, hA]⟩

/-- Concrete run of `parseRawResponse_success_shape`: a two-instrument
payload with nonempty sides reshapes successfully. -/
def rawOkExample : RawPricingResponse :=
  { Time := "2024-01-01T00:00:00Z"
    Prices :=
      [{ Instrument := "GBP_USD", Tradeable := true,
         Bids := [⟨mkRat 6 5⟩], Asks := [⟨mkRat 13 10⟩, ⟨mkRat 7 5⟩] },
       { Instrument := "EUR_GBP", Tradeable := false,
         Bids := [⟨mkRat 1 2⟩, ⟨mkRat 1 4⟩], Asks := [⟨mkRat 3 4⟩] }] }

/-- Witness for C1 at a concrete payload. -/
theorem parseRawResponse_success_shape_witness :
    (∀ rp ∈ rawOkExample.Prices, rp.Bids ≠ [] ∧ rp.Asks ≠ []) ∧
    parseRawResponse rawOkExample =
      Except.ok { Time := rawOkExample.Time,
                  Prices := rawOkExample.Prices.map convertRawPrice } :=
  ⟨by decide, (parseRawResponse_success_shape rawOkExample (by decide)).1⟩

/-- The loop of `parseRawResponse` fails whenever some record of its
input has an empty side. -/
theorem parsePrices_error_of_empty_side (l : List RawPrice)
    (h : ∃ rp ∈ l, rp.Bids = [] ∨ rp.Asks = []) :
    ∃ e, parsePrices l = Except.error e := by
  induction l with
  | nil =>
    obtain ⟨rp0, hmem, _⟩ := h
    exact absurd hmem (List.not_mem_nil rp0)
  | cons rp rest ih =>
    obtain ⟨rp0, hmem, hor⟩ := h
    by_cases hB : rp.Bids = []
    · exact ⟨"No bid prices recieved.", by simp [parsePrices, hB]⟩
    · obtain ⟨b, bs, hBc⟩ := List.exists_cons_of_ne_nil hB
      by_cases hA : rp.Asks = []
      · exact ⟨"No ask prices recieved.", by simp [parsePrices, hBc, hA]⟩
      · obtain ⟨a, as', hAc⟩ := List.exists_cons_of_ne_nil hA
        have hmem' : rp0 ∈ rest := by
          rcases List.mem_cons.mp hmem with heq | hrest
          · subst heq
            rcases hor with h1 | h2
            · exact absurd h1 hB
            · exact absurd h2 hA
          · exact hrest
        obtain ⟨e, he⟩ := ih ⟨rp0, hmem', hor⟩
        exact ⟨e, by simp [parsePrices, hBc, hAc, he]⟩

/-- Claim C2: on any raw pricing payload in which some instrument entry
has zero bid levels or zero ask levels, `parseRawResponse` returns an
error; the `Except.error` result carries no `PricingResponse`, the
Go `nil` result pointer, so no reshaped subset is exposed. -/
theorem parseRawResponse_fails_on_empty_side (raw : RawPricingResponse)
    (h : ∃ rp ∈ raw.Prices, rp.Bids = [] ∨ rp.Asks = []) :
    ∃ e, parseRawResponse raw = Except.error e := by
  obtain ⟨e, he⟩ := parsePrices_error_of_empty_side raw.Prices h
  exact ⟨e, by simp [parseRawResponse, he]⟩

/-- Witness for C2: a payload whose second instrument has no ask levels
makes the whole reshaping fail. -/
theorem parseRawResponse_fails_on_empty_side_witness :
    (∃ rp ∈ (⟨"t",
        [{ Instrument := "GBP_USD", Tradeable := true,
           Bids := [⟨mkRat 6 5⟩], Asks := [⟨mkRat 13 10⟩] },
         { Instrument := "EUR_GBP", Tradeable := true,
           Bids := [⟨mkRat 1 2⟩], Asks := [] }]⟩ : RawPricingResponse).Prices,
       rp.Bids = [] ∨ rp.Asks = []) ∧
    ∃ e, parseRawResponse
        ⟨"t",
          [{ Instrument := "GBP_USD", Tradeable := true,
             Bids := [⟨mkRat 6 5⟩], Asks := [⟨mkRat 13 10⟩] },
           { Instrument := "EUR_GBP", Tradeable := true,
             Bids := [⟨mkRat 1 2⟩], Asks := [] }]⟩ = Except.error e :=
  ⟨by decide, parseRawResponse_fails_on_empty_side _ (by decide)⟩

/-- Claim C10: `parseRawResponse` walks the instruments in input order
and stops at the first one with an empty side, checking bids before
asks: when every instrument before index `i` has both sides nonempty and
the one at `i` has no bid levels (its ask levels unconstrained, possibly
also empty), the result is the fixed missing-bid error string, which
carries no indication of which instrument failed. -/
theorem parseRawResponse_first_failure_bid_error (raw : RawPricingResponse) (i : Nat)
    (hi : i < raw.Prices.length)
    (hpre : ∀ j (hj : j < i),
      (raw.Prices.get ⟨j, Nat.lt_trans hj hi⟩).Bids ≠ [] ∧
      (raw.Prices.get ⟨j, Nat.lt_trans hj hi⟩).Asks ≠ [])
    (hbid : (raw.Prices.get ⟨i, hi⟩).Bids = []) :
    parseRawResponse raw = Except.error "No bid prices recieved." := by
  unfold parseRawResponse
  rw [parsePrices_error_bid_at raw.Prices i hi hpre hbid]

/-- Witness for C10: the second instrument has both sides empty; the
error reported is the bid one. -/
theorem parseRawResponse_first_failure_bid_error_witness :
    ((⟨"t",
       [{ Instrument := "GBP_USD", Tradeable := true,
          Bids := [⟨mkRat 6 5⟩], Asks := [⟨mkRat 13 10⟩] },
        { Instrument := "EUR_GBP", Tradeable := true, Bids := [], Asks := [] }]⟩ :
        RawPricingResponse).Prices.get ⟨1, by decide⟩).Bids = [] ∧
    parseRawResponse
      ⟨"t",
        [{ Instrument := "GBP_USD", Tradeable := true,
           Bids := [⟨mkRat 6 5⟩], Asks := [⟨mkRat 13 10⟩] },
         { Instrument := "EUR_GBP", Tradeable := true, Bids := [], Asks := [] }]⟩ =
      Except.error "No bid prices recieved." :=
  ⟨by decide,
   parseRawResponse_first_failure_bid_error _ 1 (by decide) (by decide) (by decide)⟩

/-- Claim C3: for every unit count, instrument and price bound, the
order body built by `placeMarketOrder` copies the instrument verbatim
and hardcodes `timeInForce = "FOK"`, `type = "MARKET"` and
`positionFill = "DEFAULT"`; a unit count of `1` is formatted as `"1"`
and a price bound of `1.2` as `"1.20000"` — both for the exact rational
`6/5` and for the `float32` value nearest to `1.2`,
`5033165/4194304 = 1.2000000476837158203125`. -/
theorem placeMarketOrderBody_format (units : Int) (instrument : String) (priceBound : ℚ) :
    (placeMarketOrderBody units instrument priceBound).Instrument = instrument ∧
    (placeMarketOrderBody units instrument priceBound).TimeInForce = "FOK" ∧
    (placeMarketOrderBody units instrument priceBound).«Type» = "MARKET" ∧
    (placeMarketOrderBody units instrument priceBound).PositionFill = "DEFAULT" ∧
    (placeMarketOrderBody units instrument priceBound).Units = toString units ∧
    (placeMarketOrderBody 1 instrument (mkRat 6 5)).Units = "1" ∧
    (placeMarketOrderBody 1 instrument (mkRat 6 5)).PriceBound = "1.20000" ∧
    (placeMarketOrderBody 1 instrument (mkRat 5033165 4194304)).PriceBound = "1.20000" :=
  ⟨rfl, rfl, rfl, rfl, rfl, rfl, rfl, rfl⟩

/-- Fidelity checks for `formatFixed5` at the inputs where the rounding
and sign rules of `fmt.Sprintf("%.5f", ·)` are visible: `float32`
values that are odd multiples of `1/64` scale to exact decimal ties and
round half-to-even (`0.015625` down to an even last digit, `0.046875`
up to one), and a negative value whose magnitude rounds to zero keeps
its sign. -/
theorem formatFixed5_ties_and_sign :
    formatFixed5 (mkRat 1 64) = "0.01562" ∧
    formatFixed5 (mkRat 3 64) = "0.04688" ∧
    formatFixed5 (mkRat 5 64) = "0.07812" ∧
    formatFixed5 (mkRat (-1) 64) = "-0.01562" ∧
    formatFixed5 (mkRat (-3) 64) = "-0.04688" ∧
    formatFixed5 (mkRat (-1) 10000000) = "-0.00000" ∧
    formatFixed5 (mkRat 2 3) = "0.66667" ∧
    formatFixed5 0 = "0.00000" := by decide

/-- Claim C4: a pricing response with a status code other than 200 makes
`getPrices` return the error text carrying that code (and no decoded
response), whatever the body would have decoded to; an order response
with a status code other than 201 makes `placeMarketOrder` return the
error text carrying that code and the raw body (and no decoded
response). -/
theorem nonSuccess_status_yields_error (pricingCode orderCode : Nat)
    (decoded : Except String RawPricingResponse) (body : String)
    (orderDecoded : Except String OrderResponse)
    (hp : pricingCode ≠ 200) (ho : orderCode ≠ 201) :
    getPricesHandle pricingCode decoded =
      Except.error (toString pricingCode ++
        " response code received, Prices API request not working as expected") ∧
    placeMarketOrderHandle orderCode body orderDecoded =
      Except.error ("unexpected status code: " ++ toString orderCode ++ ", body: " ++ body) := by
  constructor
  · simp [getPricesHandle, hp]
  · simp [placeMarketOrderHandle, ho]

/-- Witness for C4 at status codes 404 and 500. -/
theorem nonSuccess_status_yields_error_witness :
    (404 : Nat) ≠ 200 ∧ (500 : Nat) ≠ 201 ∧
    getPricesHandle 404 (Except.ok ⟨"", []⟩) =
      Except.error "404 response code received, Prices API request not working as expected" ∧
    placeMarketOrderHandle 500 "MARKET_HALTED" (Except.error "never decoded") =
      Except.error "unexpected status code: 500, body: MARKET_HALTED" :=
  ⟨by decide, by decide,
   (nonSuccess_status_yields_error 404 500 (Except.ok ⟨"", []⟩) "MARKET_HALTED"
      (Except.error "never decoded") (by decide) (by decide)).1,
   (nonSuccess_status_yields_error 404 500 (Except.ok ⟨"", []⟩) "MARKET_HALTED"
      (Except.error "never decoded") (by decide) (by decide)).2⟩

/-- Claim C9: `getPrices` never inspects its instruments argument before
the network call: for every credentials value and every list of
instrument strings — the empty list and lists with empty strings
included — the built request totally succeeds and carries the plain
comma-join of the list as the single `instruments` query parameter,
the empty list yielding an empty parameter value. -/
theorem getPricesRequest_no_validation (creds : Credentials) (instruments : List String) :
    (getPricesRequest creds instruments).query =
      [("instruments", String.intercalate "," instruments)] ∧
    (getPricesRequest creds []).query = [("instruments", "")] ∧
    (getPricesRequest creds [""]).query = [("instruments", "")] ∧
    (getPricesRequest creds ["", ""]).query = [("instruments", ",")] ∧
    (getPricesRequest creds ["GBP_USD", "EUR_GBP", "GBP_JPY"]).query =
      [("instruments", "GBP_USD,EUR_GBP,GBP_JPY")] :=
  ⟨rfl, rfl, rfl, rfl, rfl⟩

/-- Claim C5: when the pricing fetch succeeds and the first price
record's tradeable flag is true, a run of the driver contains exactly
one order placement, with unit count 1 and price bound the first
record's ask price (and, per the source call site, instrument
`"GBP_USD"`). -/
theorem entryPoint_places_single_order (env : Env) (resp : PricingResponse) (p : Price)
    (hok : getPricesResult env = Except.ok resp)
    (hhead : resp.Prices.head? = some p)
    (htr : p.Tradeable = true) :
    ordersPlaced (EntryPoint env) = [Event.orderCall 1 "GBP_USD" p.Ask] := by
  cases horder : placeMarketOrderResult env <;>
    simp [EntryPoint, ordersPlaced, hok, hhead, htr, horder, getPricesEvents,
      placeMarketOrderEvents, Event.isOrderCall, List.filter_append, List.filter]

/-- Environment of a run in which the pricing call returns 200 with one
tradeable `GBP_USD` record (bid 1.2, ask 1.3) and the order call
returns 201. -/
def envTradeable : Env :=
  { pricingStatus := 200
    pricingDecoded := Except.ok
      ⟨"t", [{ Instrument := "GBP_USD", Tradeable := true,
               Bids := [⟨mkRat 6 5⟩], Asks := [⟨mkRat 13 10⟩] }]⟩
    orderStatus := 201
    orderBody := ""
    orderDecoded := Except.error "order body never decoded" }

/-- Witness for C5 in the tradeable environment. -/
theorem entryPoint_places_single_order_witness :
    getPricesResult envTradeable =
      Except.ok ⟨"t", [⟨"GBP_USD", true, mkRat 6 5, mkRat 13 10⟩]⟩ ∧
    (⟨"t", [⟨"GBP_USD", true, mkRat 6 5, mkRat 13 10⟩]⟩ :
      PricingResponse).Prices.head? = some ⟨"GBP_USD", true, mkRat 6 5, mkRat 13 10⟩ ∧
    (⟨"GBP_USD", true, mkRat 6 5, mkRat 13 10⟩ : Price).Tradeable = true ∧
    ordersPlaced (EntryPoint envTradeable) = [Event.orderCall 1 "GBP_USD" (mkRat 13 10)] :=
  ⟨by decide, by decide, by decide,
   entryPoint_places_single_order envTradeable
     ⟨"t", [⟨"GBP_USD", true, mkRat 6 5, mkRat 13 10⟩]⟩
     ⟨"GBP_USD", true, mkRat 6 5, mkRat 13 10⟩ (by decide) (by decide) (by decide)⟩

/-- Claim C6: whenever the first price record's tradeable flag is false,
a run of the driver contains no order placement at all; it prints the
not-tradeable message instead. -/
theorem entryPoint_no_order_when_not_tradeable (env : Env) (resp : PricingResponse) (p : Price)
    (hok : getPricesResult env = Except.ok resp)
    (hhead : resp.Prices.head? = some p)
    (htr : p.Tradeable = false) :
    ordersPlaced (EntryPoint env) = [] ∧
    Event.printLine "Error executing market order! Instrument currently not tradeable." ∈
      EntryPoint env := by
  constructor <;>
    simp [EntryPoint, ordersPlaced, hok, hhead, htr, getPricesEvents,
      Event.isOrderCall, List.filter_append, List.filter]

/-- Environment of a run in which the pricing call returns 200 with one
record whose tradeable flag is false. -/
def envNotTradeable : Env :=
  { pricingStatus := 200
    pricingDecoded := Except.ok
      ⟨"t", [{ Instrument := "GBP_USD", Tradeable := false,
               Bids := [⟨mkRat 6 5⟩], Asks := [⟨mkRat 13 10⟩] }]⟩
    orderStatus := 201
    orderBody := ""
    orderDecoded := Except.error "order body never decoded" }

/-- Witness for C6 in the not-tradeable environment. -/
theorem entryPoint_no_order_when_not_tradeable_witness :
    getPricesResult envNotTradeable =
      Except.ok ⟨"t", [⟨"GBP_USD", false, mkRat 6 5, mkRat 13 10⟩]⟩ ∧
    (⟨"t", [⟨"GBP_USD", false, mkRat 6 5, mkRat 13 10⟩]⟩ :
      PricingResponse).Prices.head? = some ⟨"GBP_USD", false, mkRat 6 5, mkRat 13 10⟩ ∧
    (⟨"GBP_USD", false, mkRat 6 5, mkRat 13 10⟩ : Price).Tradeable = false ∧
    (ordersPlaced (EntryPoint envNotTradeable) = [] ∧
     Event.printLine "Error executing market order! Instrument currently not tradeable." ∈
       EntryPoint envNotTradeable) :=
  ⟨by decide, by decide, by decide,
   entryPoint_no_order_when_not_tradeable envNotTradeable
     ⟨"t", [⟨"GBP_USD", false, mkRat 6 5, mkRat 13 10⟩]⟩
     ⟨"GBP_USD", false, mkRat 6 5, mkRat 13 10⟩ (by decide) (by decide) (by decide)⟩

/-- Claim C7 counterexample: in the tradeable environment a single
driver run reads `config.json` twice — once inside `getPrices`
(line 157) and once inside `placeMarketOrder` (line 198) — so the
configuration file is not read exactly once per run at startup. -/
theorem creds_read_twice_counterexample :
    countReadConfig (EntryPoint envTradeable) = 2 ∧
    countReadConfig (EntryPoint envTradeable) ≠ 1 := by decide

/-- Claim C7 as amended: credentials are re-loaded from the
configuration file once per API call rather than once at startup —
every driver run reads `config.json` once for the pricing fetch plus
once more for each order placement it performs. -/
theorem creds_read_once_per_api_call (env : Env) :
    countReadConfig (EntryPoint env) = 1 + (ordersPlaced (EntryPoint env)).length := by
  cases hok : getPricesResult env with
  | error e =>
    simp [EntryPoint, countReadConfig, ordersPlaced, hok, getPricesEvents,
      Event.isReadConfig, Event.isOrderCall, List.countP_append, List.countP_cons,
      List.filter_append, List.filter]
  | ok resp =>
    cases hhead : resp.Prices.head? with
    | none =>
      simp [EntryPoint, countReadConfig, ordersPlaced, hok, hhead, getPricesEvents,
        Event.isReadConfig, Event.isOrderCall, List.countP_append, List.countP_cons,
        List.filter_append, List.filter]
    | some p =>
      by_cases htr : p.Tradeable = true
      · cases horder : placeMarketOrderResult env <;>
          simp [EntryPoint, countReadConfig, ordersPlaced, hok, hhead, htr, horder,
            getPricesEvents, placeMarketOrderEvents, Event.isReadConfig,
            Event.isOrderCall, List.countP_append, List.countP_cons,
            List.filter_append, List.filter]
      · simp [EntryPoint, countReadConfig, ordersPlaced, hok, hhead, htr,
          getPricesEvents, Event.isReadConfig, Event.isOrderCall,
          List.countP_append, List.countP_cons, List.filter_append, List.filter]

/-- Claim C8: every order placement a driver run can contain uses the
constant instrument `"GBP_USD"` and unit count 1, whatever the pricing
response held — the instrument is not taken from the price record that
gated the order. -/
theorem orderCall_instrument_is_constant (env : Env) (u : Int) (instr : String) (pb : ℚ)
    (h : Event.orderCall u instr pb ∈ EntryPoint env) :
    instr = "GBP_USD" ∧ u = 1 := by
  cases hok : getPricesResult env with
  | error e =>
    simp [EntryPoint, hok, getPricesEvents] at h
  | ok resp =>
    cases hhead : resp.Prices.head? with
    | none =>
      simp [EntryPoint, hok, hhead, getPricesEvents] at h
    | some p =>
      by_cases htr : p.Tradeable = true
      · cases horder : placeMarketOrderResult env <;>
          · simp [EntryPoint, hok, hhead, htr, horder, getPricesEvents,
              placeMarketOrderEvents] at h
            exact ⟨h.2.1, h.1⟩
      · simp [EntryPoint, hok, hhead, htr, getPricesEvents] at h

/-- Witness for C8 in the tradeable environment. -/
theorem orderCall_instrument_is_constant_witness :
    Event.orderCall 1 "GBP_USD" (mkRat 13 10) ∈ EntryPoint envTradeable ∧
    ("GBP_USD" = "GBP_USD" ∧ (1 : Int) = 1) :=
  ⟨by decide,
   orderCall_instrument_is_constant envTradeable 1 "GBP_USD" (mkRat 13 10) (by decide)⟩

end Trader
